import Mathlib

/-!
Shallow embedding of the koatty_typeorm transaction decorator
(`src/decorator.ts`, the current `AsyncLocalStorage`-based revision).

The embedding models the pure control flow of `TransactionManager` and
`TransactionAspect`.  External collaborators (the TypeORM query runner, the
datasource, hooks and the decorated body) are mocked by behaviour records
that say how each external call would settle; each Aspect operation is then
a pure function from those behaviours to an event trace plus a settle
result, mirroring the awaited statement order of the source.
-/

namespace Koatty

/-- Transaction isolation levels, as in `TransactionOptions.isolationLevel`. -/
inductive IsolationLevel
  | READ_UNCOMMITTED
  | READ_COMMITTED
  | REPEATABLE_READ
  | SERIALIZABLE
deriving DecidableEq, Repr

/-- Propagation behaviours, as in `TransactionOptions.propagation`. -/
inductive Propagation
  | REQUIRED
  | REQUIRES_NEW
  | SUPPORTS
  | NOT_SUPPORTED
  | NEVER
  | NESTED
  | MANDATORY
deriving DecidableEq, Repr

/-- Behaviour of one optional user hook: `none` models an absent hook,
`some none` a hook that resolves, `some (some m)` a hook that rejects with
message `m`. -/
abbrev HookBehavior := Option (Option String)

/-- The four lifecycle hooks of `TransactionHooks`.  An options object whose
`hooks` field is absent in TypeScript is modelled by the record with all
fields `none`, which behaves identically at every `options.hooks?.x` read. -/
structure TransactionHooks where
  beforeCommit : HookBehavior := none
  afterCommit : HookBehavior := none
  beforeRollback : HookBehavior := none
  afterRollback : HookBehavior := none
deriving DecidableEq, Repr

/-- `TransactionOptions` from the source.  `none` models an `undefined`
field; `timeout` is in milliseconds. -/
structure TransactionOptions where
  isolationLevel : Option IsolationLevel := none
  timeout : Option Nat := none
  readOnly : Bool := false
  propagation : Option Propagation := none
  dataSourceName : Option String := none
  hooks : TransactionHooks := {}
  name : Option String := none
deriving DecidableEq, Repr

/-- `GlobalTransactionConfig` with the defaults of
`TransactionManager.globalConfig`. -/
structure GlobalTransactionConfig where
  defaultTimeout : Option Nat := none
  defaultIsolationLevel : Option IsolationLevel := none
  maxNestedDepth : Option Nat := some 10
  enableStats : Bool := true
  enableLogging : Bool := true
  cleanupInterval : Option Nat := some 300000
  maxContextAge : Option Nat := some 1800000
deriving DecidableEq, Repr

/-- The initial value of `TransactionManager.globalConfig`. -/
def defaultGlobalConfig : GlobalTransactionConfig := {}

/-- JavaScript truthiness of an optional number field: an `undefined` or
zero value is falsy. -/
def truthyNat : Option Nat → Bool
  | none => false
  | some n => n != 0

/-- `TransactionStats`.  `averageDuration` is a JavaScript float computed by
exact division, modelled as a rational; `totalDurationInternal` models the
optional internal `_totalDuration` accumulator. -/
structure TransactionStats where
  totalTransactions : Nat
  successfulTransactions : Nat
  failedTransactions : Nat
  averageDuration : ℚ
  longestTransaction : Nat
  shortestTransaction : Nat
  totalDurationInternal : Option Nat
deriving DecidableEq, Repr

/-- The initial value of `TransactionManager.stats` (the static initialiser,
which leaves `_totalDuration` undefined). -/
def initialStats : TransactionStats :=
  { totalTransactions := 0
    successfulTransactions := 0
    failedTransactions := 0
    averageDuration := 0
    longestTransaction := 0
    shortestTransaction := 0
    totalDurationInternal := none }

/-- `TransactionManager.updateStats(duration, success)`, acting on a stats
record.  Mirrors the source statement by statement: clamp the duration to at
least 1 ms, bump the counters, accumulate the running sum, recompute the
average by division, and update the extrema. -/
def updateStats (stats : TransactionStats) (duration : Nat) (success : Bool) :
    TransactionStats :=
  let effectiveDuration := max duration 1
  let total := stats.totalTransactions + 1
  let newTotalDuration := (stats.totalDurationInternal.getD 0) + effectiveDuration
  { totalTransactions := total
    successfulTransactions :=
      if success then stats.successfulTransactions + 1 else stats.successfulTransactions
    failedTransactions :=
      if success then stats.failedTransactions else stats.failedTransactions + 1
    totalDurationInternal := some newTotalDuration
    averageDuration := (newTotalDuration : ℚ) / (total : ℚ)
    longestTransaction :=
      if effectiveDuration > stats.longestTransaction then effectiveDuration
      else stats.longestTransaction
    shortestTransaction :=
      if total = 1 then effectiveDuration
      else if effectiveDuration < stats.shortestTransaction then effectiveDuration
      else stats.shortestTransaction }

/-- The static state of `TransactionManager` that the statistics claims
concern: the global configuration plus the stats record. -/
structure ManagerState where
  globalConfig : GlobalTransactionConfig
  stats : TransactionStats
deriving DecidableEq, Repr

/-- `TransactionManager.updateStats` as it acts on the static manager state.
The source reads and writes only `this.stats`; it never consults
`this.globalConfig` (in particular not `enableStats`). -/
def managerUpdateStats (st : ManagerState) (duration : Nat) (success : Bool) :
    ManagerState :=
  { st with stats := updateStats st.stats duration success }

/-- `TransactionContext`.  The query runner and datasource handles are
external objects and carry no modelled state of their own; the parent link
is passed separately where needed. -/
structure TransactionContext where
  contextId : String
  savepoints : List String
  depth : Nat
  options : TransactionOptions
  isActive : Bool
  startTime : Nat
deriving DecidableEq, Repr

/-- `Array.prototype.indexOf` on a list of savepoint names: `none` models
the return value `-1`, `some i` the first index holding `x`. -/
def jsIndexOf (l : List String) (x : String) : Option Nat :=
  match l with
  | [] => none
  | a :: rest => if a = x then some 0 else (jsIndexOf rest x).map (· + 1)

/-- The deterministic savepoint name chosen by
`TransactionManager.createSavepoint`: `sp_` + contextId + `_` + stack height. -/
def savepointNameFor (ctx : TransactionContext) : String :=
  "sp_" ++ ctx.contextId ++ "_" ++ toString ctx.savepoints.length

/-- `TransactionManager.createSavepoint`: issue `SAVEPOINT name` and push the
name; returns the updated context and the name. -/
def createSavepoint (ctx : TransactionContext) : TransactionContext × String :=
  let savepointName := savepointNameFor ctx
  ({ ctx with savepoints := ctx.savepoints ++ [savepointName] }, savepointName)

/-- `TransactionManager.rollbackToSavepoint`: issue the rollback statement,
then `savepoints.splice(index + 1)` — drop every entry after the named
savepoint (the savepoint itself stays); no change when the name is absent. -/
def rollbackToSavepoint (ctx : TransactionContext) (savepointName : String) :
    TransactionContext :=
  match jsIndexOf ctx.savepoints savepointName with
  | some index => { ctx with savepoints := ctx.savepoints.take (index + 1) }
  | none => ctx

/-- `TransactionManager.releaseSavepoint`: issue the release statement, then
`savepoints.splice(index, 1)` — remove exactly the named entry; no change
when the name is absent. -/
def releaseSavepoint (ctx : TransactionContext) (savepointName : String) :
    TransactionContext :=
  match jsIndexOf ctx.savepoints savepointName with
  | some index => { ctx with savepoints := ctx.savepoints.eraseIdx index }
  | none => ctx

/-- Errors that can surface from an Aspect call.  Rollback and release
failures never surface (the source logs and swallows them), so they appear
only as log events, not here.  The TypeScript errors are `Error` objects
whose data lives in the message string; the timeout message
`Transaction timeout after Nms (context: C)` is modelled structurally as
`timeoutError N C`. -/
inductive Err
  | bodyError (msg : String)
  | hookError (msg : String)
  | timeoutError (timeoutMs : Nat) (contextId : String)
  | neverPropagation
  | mandatoryPropagation
  | nestingLimitExceeded (limit : Nat)
  | dataSourceNotFound (name : String)
deriving DecidableEq, Repr

/-- Observable steps of an Aspect call, in program order: session calls,
hook invocations, the start of the decorated body, savepoint statements,
statistics updates and logged (swallowed) errors. -/
inductive Event
  | connect
  | startTransaction (isolation : Option IsolationLevel)
  | setReadOnly
  | hookBeforeCommit
  | hookAfterCommit
  | hookBeforeRollback
  | hookAfterRollback
  | bodyStart
  | commitTx
  | rollbackTx
  | releaseRunner
  | savepointCreate (savepointName : String)
  | savepointRelease (savepointName : String)
  | savepointRollback (savepointName : String)
  | statsUpdate (success : Bool)
  | logError (msg : String)
deriving DecidableEq, Repr

deriving instance DecidableEq for Except

/-- Behaviour of the decorated body (the `proceed` continuation): what it
settles to, and when (in ms after it starts); `settleTime = none` models a
body whose promise never settles.  The thrown value of a body is opaque to
the Aspect and is modelled as a message string; a resolved value is an
`Option Nat`, where `none` models a body that resolves `undefined` (a void
async method) — a distinction `run` observes through its
`propagationResult !== undefined` test. -/
structure BodyBehavior where
  outcome : Except String (Option Nat) := Except.ok (some 0)
  settleTime : Option Nat := some 0
deriving DecidableEq, Repr

/-- Behaviour of the mocked query runner during the failure and cleanup
phases: what `isTransactionActive` reports when `rollbackTransaction` runs,
whether `rollbackTransaction()` rejects, what `isReleased` reports when
`cleanupTransaction` runs, and whether `release()` rejects. -/
structure SessionBehavior where
  isTransactionActiveAtRollback : Bool := true
  rollbackError : Option String := none
  isReleasedAtCleanup : Bool := false
  releaseError : Option String := none
deriving DecidableEq, Repr

/-- Everything external that one Aspect invocation observes: whether the
datasource lookup succeeds, the generated context id, the start timestamp,
and the body and session behaviours. -/
structure AspectEnv where
  dataSourceFound : Bool := true
  contextId : String := "tx_test"
  startTime : Nat := 0
  body : BodyBehavior := {}
  session : SessionBehavior := {}
deriving DecidableEq, Repr

/-- Result of one Aspect invocation: the event trace, the settle result
(`none` models a call whose promise never settles; a resolved `Option Nat`
value of `none` models resolving `undefined`), and the transaction context
the call created, when it created one. -/
structure TxOutcome where
  events : List Event
  result : Option (Except Err (Option Nat))
  context : Option TransactionContext
deriving DecidableEq, Repr

/-- `TransactionAspect.prepareTransactionContext`: compose the context
record — empty savepoint stack, depth `parent.depth + 1` under a parent and
`0` otherwise.  (The datasource lookup that precedes this composition in the
source is modelled by `AspectEnv.dataSourceFound` at the call site.) -/
def prepareTransactionContext (options : TransactionOptions)
    (parentContext : Option TransactionContext) (startTime : Nat)
    (contextId : String) : TransactionContext :=
  { contextId := contextId
    savepoints := []
    depth := match parentContext with
      | some parent => parent.depth + 1
      | none => 0
    options := options
    isActive := true
    startTime := startTime }

/-- `TransactionAspect.connectAndStartTransaction`: connect, begin (passing
the isolation level through when set), apply read-only mode, then await the
`beforeCommit` hook when present.  Returns the events and the hook error
when the hook rejects (the only step here whose failure the claims model). -/
def connectAndStartTransaction (options : TransactionOptions) :
    List Event × Option Err :=
  let evs := [Event.connect, Event.startTransaction options.isolationLevel]
  let evs := if options.readOnly then evs ++ [Event.setReadOnly] else evs
  match options.hooks.beforeCommit with
  | none => (evs, none)
  | some none => (evs ++ [Event.hookBeforeCommit], none)
  | some (some m) => (evs ++ [Event.hookBeforeCommit], some (Err.hookError m))

/-- `TransactionAspect.createTimeoutPromise`: a promise that never settles
when the timeout is unset or not positive, and otherwise rejects at time
`t` with the timeout error carrying `t` and the context id. -/
def createTimeoutPromise (timeout : Option Nat) (contextId : String) :
    Option (Nat × Err) :=
  match timeout with
  | none => none
  | some t => if t = 0 then none else some (t, Err.timeoutError t contextId)

/-- `TransactionAspect.executeInTransaction`: run the body in the context
binding; when `options.timeout` is truthy, race it against
`createTimeoutPromise`.  Returns `none` when neither promise ever settles.
A tie in the race (body settling exactly at the deadline) is resolved in
favour of the body. -/
def executeInTransaction (options : TransactionOptions) (contextId : String)
    (body : BodyBehavior) : Option (Except Err (Option Nat)) :=
  let bodyResult : Except Err (Option Nat) :=
    match body.outcome with
    | Except.ok v => Except.ok v
    | Except.error m => Except.error (Err.bodyError m)
  if truthyNat options.timeout then
    match createTimeoutPromise options.timeout contextId, body.settleTime with
    | none, none => none
    | none, some _ => some bodyResult
    | some (_, e), none => some (Except.error e)
    | some (t, e), some s =>
        if s ≤ t then some bodyResult else some (Except.error e)
  else
    body.settleTime.map (fun _ => bodyResult)

/-- `TransactionAspect.commitTransaction`: commit, then await the
`afterCommit` hook when present; a hook rejection is logged and swallowed. -/
def commitTransaction (options : TransactionOptions) : List Event :=
  let evs := [Event.commitTx]
  match options.hooks.afterCommit with
  | none => evs
  | some none => evs ++ [Event.hookAfterCommit]
  | some (some m) =>
      evs ++ [Event.hookAfterCommit, Event.logError ("afterCommit hook failed: " ++ m)]

/-- `TransactionAspect.rollbackTransaction`: await `beforeRollback` when
present (rejection logged and swallowed), roll back only when the runner
reports an active transaction (rejection logged and swallowed), then await
`afterRollback` when present (rejection logged and swallowed).  The function
itself never rejects, so it yields only events. -/
def rollbackTransaction (options : TransactionOptions)
    (session : SessionBehavior) : List Event :=
  let evs1 := match options.hooks.beforeRollback with
    | none => []
    | some none => [Event.hookBeforeRollback]
    | some (some m) =>
        [Event.hookBeforeRollback, Event.logError ("beforeRollback hook failed: " ++ m)]
  let evs2 :=
    if session.isTransactionActiveAtRollback then
      match session.rollbackError with
      | none => [Event.rollbackTx]
      | some m => [Event.rollbackTx, Event.logError ("rollback failed: " ++ m)]
    else []
  let evs3 := match options.hooks.afterRollback with
    | none => []
    | some none => [Event.hookAfterRollback]
    | some (some m) =>
        [Event.hookAfterRollback, Event.logError ("afterRollback hook failed: " ++ m)]
  evs1 ++ evs2 ++ evs3

/-- `TransactionAspect.cleanupTransaction`: update the statistics, then
release the runner unless already released (rejection logged and
swallowed).  Never rejects. -/
def cleanupTransaction (session : SessionBehavior) (success : Bool) :
    List Event :=
  let evs := [Event.statsUpdate success]
  if session.isReleasedAtCleanup then evs
  else
    match session.releaseError with
    | none => evs ++ [Event.releaseRunner]
    | some m => evs ++ [Event.releaseRunner, Event.logError ("release failed: " ++ m)]

/-- `TransactionAspect.createNewTransaction`.  The datasource lookup inside
`prepareTransactionContext` happens before the `try` block, so its failure
skips rollback, statistics and release entirely.  Otherwise: connect and
begin; run the body (with the timeout race); on success commit, on failure
roll back and re-throw the same error; the `finally` clause updates the
statistics and releases the runner.  When the body race never settles the
`finally` clause is never reached. -/
def createNewTransaction (env : AspectEnv) (options : TransactionOptions)
    (parentContext : Option TransactionContext) : TxOutcome :=
  if env.dataSourceFound then
    let context := prepareTransactionContext options parentContext env.startTime env.contextId
    let connectPhase := connectAndStartTransaction options
    match connectPhase.2 with
    | some e =>
        { events := connectPhase.1 ++ rollbackTransaction options env.session
            ++ cleanupTransaction env.session false
          result := some (Except.error e)
          context := some context }
    | none =>
      match executeInTransaction options env.contextId env.body with
      | none =>
          { events := connectPhase.1 ++ [Event.bodyStart]
            result := none
            context := some context }
      | some (Except.ok v) =>
          { events := connectPhase.1 ++ [Event.bodyStart] ++ commitTransaction options
              ++ cleanupTransaction env.session true
            result := some (Except.ok v)
            context := some context }
      | some (Except.error e) =>
          { events := connectPhase.1 ++ [Event.bodyStart] ++ rollbackTransaction options env.session
              ++ cleanupTransaction env.session false
            result := some (Except.error e)
            context := some context }
  else
    { events := []
      result := some (Except.error (Err.dataSourceNotFound (options.dataSourceName.getD "DB")))
      context := none }

/-- The nesting-depth guard at the top of
`TransactionAspect.handleNestedTransaction`:
`globalConfig.maxNestedDepth && parentContext.depth >= globalConfig.maxNestedDepth`,
with JavaScript truthiness on the configured limit. -/
def nestedDepthGuard (cfg : GlobalTransactionConfig)
    (parentContext : TransactionContext) : Bool :=
  match cfg.maxNestedDepth with
  | none => false
  | some m => decide (m ≠ 0 ∧ m ≤ parentContext.depth)

/-- `TransactionAspect.handleNestedTransaction`: reject when the depth guard
fires (before any savepoint exists); otherwise create a savepoint, run the
body, and release the savepoint on success or roll back to it on failure,
re-throwing the body error.  Returns the outcome together with the final
state of the parent context (whose savepoint stack the call mutates). -/
def handleNestedTransaction (cfg : GlobalTransactionConfig)
    (parentContext : TransactionContext) (_options : TransactionOptions)
    (body : BodyBehavior) : TxOutcome × TransactionContext :=
  if nestedDepthGuard cfg parentContext then
    ({ events := []
       result := some (Except.error (Err.nestingLimitExceeded (cfg.maxNestedDepth.getD 0)))
       context := none }, parentContext)
  else
    let step := createSavepoint parentContext
    match body.settleTime with
    | none =>
        ({ events := [Event.savepointCreate step.2, Event.bodyStart]
           result := none
           context := none }, step.1)
    | some _ =>
      match body.outcome with
      | Except.ok v =>
          ({ events := [Event.savepointCreate step.2, Event.bodyStart,
               Event.savepointRelease step.2]
             result := some (Except.ok v)
             context := none }, releaseSavepoint step.1 step.2)
      | Except.error m =>
          ({ events := [Event.savepointCreate step.2, Event.bodyStart,
               Event.savepointRollback step.2]
             result := some (Except.error (Err.bodyError m))
             context := none }, rollbackToSavepoint step.1 step.2)

/-- `TransactionAspect.runWithStats`: run the body and, once it settles,
update the statistics in the `finally` clause; when the body never settles
no statistics update happens. -/
def runWithStats (body : BodyBehavior) : TxOutcome :=
  match body.settleTime with
  | none => { events := [Event.bodyStart], result := none, context := none }
  | some _ =>
    match body.outcome with
    | Except.ok v =>
        { events := [Event.bodyStart, Event.statsUpdate true]
          result := some (Except.ok v)
          context := none }
    | Except.error m =>
        { events := [Event.bodyStart, Event.statsUpdate false]
          result := some (Except.error (Err.bodyError m))
          context := none }

/-- `TransactionAspect.runInNewContext` (the `NOT_SUPPORTED` suspension):
run the body outside any ambient context via `runWithoutContext`, then
update the statistics in the `finally` clause.  Its observable trace and
settle behaviour coincide with `runWithStats`. -/
def runInNewContext (body : BodyBehavior) : TxOutcome :=
  runWithStats body

/-- The `return undefined` at the end of `handlePropagation`: the call
resolves with the value `undefined`, which `run` later interprets as the
fall-through sentinel. -/
def undefinedOutcome : TxOutcome :=
  { events := [], result := some (Except.ok none), context := none }

/-- `TransactionAspect.handlePropagation`: the dispatch table over
`(propagation, current context present)`.  The handled paths return the
body's own resolved value (which may itself be `undefined`); the
REQUIRES_NEW-with-context case and the create-new cases `break` out of the
switch and resolve `undefined`; the two propagation violations are thrown
without any statistics update. -/
def handlePropagation (options : TransactionOptions)
    (currentContext : Option TransactionContext) (body : BodyBehavior) :
    TxOutcome :=
  match currentContext with
  | some _ =>
    match options.propagation with
    | some Propagation.REQUIRED => runWithStats body
    | some Propagation.SUPPORTS => runWithStats body
    | some Propagation.MANDATORY => runWithStats body
    | some Propagation.REQUIRES_NEW => undefinedOutcome
    | some Propagation.NOT_SUPPORTED => runInNewContext body
    | some Propagation.NEVER =>
        { events := [], result := some (Except.error Err.neverPropagation),
          context := none }
    | _ => runWithStats body
  | none =>
    match options.propagation with
    | some Propagation.SUPPORTS => runWithStats body
    | some Propagation.NOT_SUPPORTED => runWithStats body
    | some Propagation.NEVER => runWithStats body
    | some Propagation.MANDATORY =>
        { events := [], result := some (Except.error Err.mandatoryPropagation),
          context := none }
    | _ => undefinedOutcome

/-- The global-default application at the top of `TransactionAspect.run`:
two in-place assignments into the caller-supplied options object
(`txOptions.timeout = ...`, `txOptions.isolationLevel = ...`), each guarded
by the field being `undefined` and the configured default being truthy.
Returns the object after the assignments together with whether any
assignment was performed on it. -/
def applyGlobalDefaults (txOptions : TransactionOptions)
    (cfg : GlobalTransactionConfig) : TransactionOptions × Bool :=
  let step1 :=
    if txOptions.timeout = none ∧ truthyNat cfg.defaultTimeout then
      ({ txOptions with timeout := cfg.defaultTimeout }, true)
    else (txOptions, false)
  let step2 :=
    if step1.1.isolationLevel = none ∧ cfg.defaultIsolationLevel.isSome then
      ({ step1.1 with isolationLevel := cfg.defaultIsolationLevel }, true)
    else (step1.1, false)
  (step2.1, step1.2 || step2.2)

/-- The tail of `TransactionAspect.run` for every non-NESTED route: await
`handlePropagation` and test `propagationResult !== undefined`.  A resolved
defined value is returned, a rejection propagates, a never-settling handled
path hangs, and a resolved `undefined` — whether the explicit create-new
sentinel or a handled body that resolved `undefined` — falls through to
`createNewTransaction` (passing the current context as parent), appending
its events to whatever the handled path already performed. -/
def runPropagationOrCreate (env : AspectEnv) (txOptions : TransactionOptions)
    (currentContext : Option TransactionContext) : TxOutcome :=
  let propagationResult := handlePropagation txOptions currentContext env.body
  match propagationResult.result with
  | some (Except.ok (some _)) => propagationResult
  | some (Except.ok none) =>
      let created := createNewTransaction env txOptions currentContext
      { events := propagationResult.events ++ created.events
        result := created.result
        context := created.context }
  | some (Except.error _) => propagationResult
  | none => propagationResult

/-- Result of `TransactionAspect.run`: the outcome plus the state of the
caller-supplied options object after the default application (the very
object every created context stores), and whether `run` wrote into it. -/
structure RunResult where
  outcome : TxOutcome
  effectiveOptions : TransactionOptions
  wroteIntoCallerOptions : Bool
deriving DecidableEq, Repr

/-- `TransactionAspect.run`: apply global defaults to the caller options,
route `NESTED` inside an existing context to `handleNestedTransaction`
(whose result is returned directly, before the sentinel test), and send
every other route through `runPropagationOrCreate`. -/
def runAspect (cfg : GlobalTransactionConfig) (env : AspectEnv)
    (callerOptions : TransactionOptions)
    (currentContext : Option TransactionContext) : RunResult :=
  let defaults := applyGlobalDefaults callerOptions cfg
  let txOptions := defaults.1
  match currentContext, txOptions.propagation with
  | some parent, some Propagation.NESTED =>
      { outcome := (handleNestedTransaction cfg parent txOptions env.body).1
        effectiveOptions := txOptions
        wroteIntoCallerOptions := defaults.2 }
  | _, _ =>
      { outcome := runPropagationOrCreate env txOptions currentContext
        effectiveOptions := txOptions
        wroteIntoCallerOptions := defaults.2 }

/-- Number of statistics updates recorded in a trace. -/
def statsUpdateCount (events : List Event) : Nat :=
  events.countP (fun e =>
    match e with
    | Event.statsUpdate _ => true
    | _ => false)

/-! Concrete fixtures used by witnesses and counterexamples. -/

/-- Fixture: a root context holding three outstanding savepoints. -/
def ctxABC : TransactionContext :=
  { contextId := "tx_1", savepoints := ["a", "b", "c"], depth := 0,
    options := {}, isActive := true, startTime := 0 }

/-- Fixture: a fresh root context (as composed for a REQUIRED call with no
parent). -/
def rootCtx : TransactionContext :=
  { contextId := "tx_r", savepoints := [], depth := 0,
    options := {}, isActive := true, startTime := 0 }

/-- Fixture: the default environment — datasource found, body resolves
immediately with 0, session healthy. -/
def envOK : AspectEnv := {}

/-- Fixture: a body whose promise never settles (models a body still in
flight, or one that hangs). -/
def bodyNeverSettles : BodyBehavior := { outcome := Except.ok (some 0), settleTime := none }

/-! Helper lemmas about the phase functions, shared by several claims. -/

/-- The rollback phase performs `rollbackTransaction` on the runner exactly
when the runner reports an active transaction. -/
theorem rollbackTx_mem_iff (o : TransactionOptions) (s : SessionBehavior) :
    Event.rollbackTx ∈ rollbackTransaction o s ↔
      s.isTransactionActiveAtRollback = true := by
  unfold rollbackTransaction
  rcases h1 : o.hooks.beforeRollback with _ | br <;>
    rcases h2 : o.hooks.afterRollback with _ | ar <;>
    rcases h3 : s.rollbackError with _ | m <;>
    rcases h4 : s.isTransactionActiveAtRollback with _ | _ <;>
    (try rcases br with _ | b1) <;> (try rcases ar with _ | a1) <;>
    simp_all

/-- When the `beforeRollback` hook is configured, the rollback phase begins
with its invocation. -/
theorem rollback_starts_with_beforeRollback (o : TransactionOptions)
    (s : SessionBehavior) (h : o.hooks.beforeRollback ≠ none) :
    (rollbackTransaction o s).head? = some Event.hookBeforeRollback := by
  unfold rollbackTransaction
  rcases h1 : o.hooks.beforeRollback with _ | br
  · exact absurd h1 h
  · rcases br with _ | b1 <;> simp

/-- A rejected `rollbackTransaction` call is logged inside the rollback
phase. -/
theorem rollback_error_logged (o : TransactionOptions) (s : SessionBehavior)
    (hact : s.isTransactionActiveAtRollback = true)
    (r : String) (hr : s.rollbackError = some r) :
    Event.logError ("rollback failed: " ++ r) ∈ rollbackTransaction o s := by
  unfold rollbackTransaction
  simp [hact, hr]

/-- A rejected `release` call is logged inside the cleanup phase. -/
theorem release_error_logged (s : SessionBehavior) (b : Bool)
    (hrel : s.isReleasedAtCleanup = false)
    (r : String) (hr : s.releaseError = some r) :
    Event.logError ("release failed: " ++ r) ∈ cleanupTransaction s b := by
  unfold cleanupTransaction
  simp [hrel, hr]

/-- The cleanup phase always records exactly one statistics update. -/
theorem statsUpdateCount_cleanup (s : SessionBehavior) (b : Bool) :
    statsUpdateCount (cleanupTransaction s b) = 1 := by
  unfold cleanupTransaction statsUpdateCount
  rcases h1 : s.isReleasedAtCleanup with _ | _ <;>
    rcases h2 : s.releaseError with _ | m <;> simp_all

/-- The cleanup phase records the success flag it was given. -/
theorem statsUpdate_mem_cleanup (s : SessionBehavior) (b : Bool) :
    Event.statsUpdate b ∈ cleanupTransaction s b := by
  unfold cleanupTransaction
  rcases h1 : s.isReleasedAtCleanup with _ | _ <;>
    rcases h2 : s.releaseError with _ | m <;> simp_all

/-- Unless the runner is already released, the cleanup phase releases it. -/
theorem releaseRunner_mem_cleanup (s : SessionBehavior) (b : Bool)
    (hrel : s.isReleasedAtCleanup = false) :
    Event.releaseRunner ∈ cleanupTransaction s b := by
  unfold cleanupTransaction
  rcases h2 : s.releaseError with _ | m <;> simp_all

/-- The connect phase never updates statistics. -/
theorem statsUpdateCount_connect (o : TransactionOptions) :
    statsUpdateCount (connectAndStartTransaction o).1 = 0 := by
  unfold connectAndStartTransaction statsUpdateCount
  rcases h1 : o.hooks.beforeCommit with _ | br <;>
    (try rcases br with _ | b1) <;>
    cases o.readOnly <;> simp_all

/-- The commit phase never updates statistics. -/
theorem statsUpdateCount_commit (o : TransactionOptions) :
    statsUpdateCount (commitTransaction o) = 0 := by
  unfold commitTransaction statsUpdateCount
  rcases h1 : o.hooks.afterCommit with _ | ar <;>
    (try rcases ar with _ | a1) <;> simp_all

/-- The rollback phase never updates statistics. -/
theorem statsUpdateCount_rollback (o : TransactionOptions) (s : SessionBehavior) :
    statsUpdateCount (rollbackTransaction o s) = 0 := by
  unfold rollbackTransaction statsUpdateCount
  rcases h1 : o.hooks.beforeRollback with _ | br <;>
    rcases h2 : o.hooks.afterRollback with _ | ar <;>
    rcases h3 : s.rollbackError with _ | m <;>
    rcases h4 : s.isTransactionActiveAtRollback with _ | _ <;>
    (try rcases br with _ | b1) <;> (try rcases ar with _ | a1) <;>
    simp_all

/-- Statistics updates in a concatenated trace add up. -/
theorem statsUpdateCount_append (l1 l2 : List Event) :
    statsUpdateCount (l1 ++ l2) = statsUpdateCount l1 + statsUpdateCount l2 := by
  unfold statsUpdateCount
  exact List.countP_append _ _ _

/-- With a settling body, the timeout race settles. -/
theorem executeInTransaction_settles (o : TransactionOptions) (cid : String)
    (body : BodyBehavior) (s : Nat) (hs : body.settleTime = some s) :
    (executeInTransaction o cid body).isSome = true := by
  unfold executeInTransaction
  rcases ht : o.timeout with _ | t
  · simp [truthyNat, ht, hs]
  · by_cases h0 : t = 0 <;>
      simp [truthyNat, ht, h0, createTimeoutPromise, hs] <;>
      split <;> simp

/-- The default application never changes the propagation field of the
options object. -/
theorem applyGlobalDefaults_propagation (o : TransactionOptions)
    (cfg : GlobalTransactionConfig) :
    (applyGlobalDefaults o cfg).1.propagation = o.propagation := by
  unfold applyGlobalDefaults
  dsimp only
  split_ifs <;> rfl

/-- The commit phase never fires the `beforeCommit` hook. -/
theorem hookBeforeCommit_not_mem_commit (o : TransactionOptions) :
    Event.hookBeforeCommit ∉ commitTransaction o := by
  unfold commitTransaction
  rcases h1 : o.hooks.afterCommit with _ | ar <;>
    (try rcases ar with _ | a1) <;> simp_all

/-- The rollback phase never fires the `beforeCommit` hook. -/
theorem hookBeforeCommit_not_mem_rollback (o : TransactionOptions)
    (s : SessionBehavior) :
    Event.hookBeforeCommit ∉ rollbackTransaction o s := by
  unfold rollbackTransaction
  rcases h1 : o.hooks.beforeRollback with _ | br <;>
    rcases h2 : o.hooks.afterRollback with _ | ar <;>
    rcases h3 : s.rollbackError with _ | m <;>
    rcases h4 : s.isTransactionActiveAtRollback with _ | _ <;>
    (try rcases br with _ | b1) <;> (try rcases ar with _ | a1) <;>
    simp_all

/-- The cleanup phase never fires the `beforeCommit` hook. -/
theorem hookBeforeCommit_not_mem_cleanup (s : SessionBehavior) (b : Bool) :
    Event.hookBeforeCommit ∉ cleanupTransaction s b := by
  unfold cleanupTransaction
  rcases h1 : s.isReleasedAtCleanup with _ | _ <;>
    rcases h2 : s.releaseError with _ | m <;> simp_all

/-- First-occurrence index of a savepoint name sitting after a prefix that
does not contain it. -/
theorem jsIndexOf_append_cons (S : String) :
    ∀ (pre post : List String), S ∉ pre →
      jsIndexOf (pre ++ S :: post) S = some pre.length := by
  intro pre
  induction pre with
  | nil => intro post _; simp [jsIndexOf]
  | cons a rest ih =>
      intro post hS
      have ha : ¬ (a = S) := fun h => hS (by simp [h])
      have hrest : S ∉ rest := fun h => hS (List.mem_cons_of_mem _ h)
      simp [jsIndexOf, ha, ih post hrest]

/-- Taking one past the prefix keeps the marked element and drops the rest. -/
theorem take_succ_of_append_cons (S : String) :
    ∀ (pre post : List String),
      (pre ++ S :: post).take (pre.length + 1) = pre ++ [S] := by
  intro pre
  induction pre with
  | nil => intro post; simp
  | cons a rest ih => intro post; simp [List.length_cons, ih post]

/-- Erasing at the prefix length removes exactly the marked element. -/
theorem eraseIdx_append_cons (S : String) :
    ∀ (pre post : List String),
      (pre ++ S :: post).eraseIdx pre.length = pre ++ post := by
  intro pre
  induction pre with
  | nil => intro post; simp [List.eraseIdx]
  | cons a rest ih => intro post; simp [List.eraseIdx, ih post]

/-! Claim theorems. -/

/-- Fixture: the manager state with statistics disabled and pristine
counters. -/
def statsDisabledState : ManagerState :=
  { globalConfig := { defaultGlobalConfig with enableStats := false },
    stats := initialStats }

/-- C4: the claim says that with `enableStats == false` a call to
`updateStats` leaves every statistics field unchanged.  Evaluating the code
at that configuration shows the opposite: `updateStats` never consults
`enableStats`, so the call increments `total` and `succeeded`, starts the
running sum, and rewrites the aggregates all the same. -/
theorem updateStats_ignores_enableStats :
    statsDisabledState.globalConfig.enableStats = false ∧
    (managerUpdateStats statsDisabledState 100 true).stats ≠ statsDisabledState.stats ∧
    (managerUpdateStats statsDisabledState 100 true).stats.totalTransactions = 1 ∧
    (managerUpdateStats statsDisabledState 100 true).stats.successfulTransactions = 1 ∧
    (managerUpdateStats statsDisabledState 100 true).stats.totalDurationInternal = some 100 ∧
    (managerUpdateStats statsDisabledState 100 true).stats.longestTransaction = 100 := by
  refine ⟨rfl, ?_, rfl, rfl, rfl, rfl⟩
  decide

/-- C2 counterexample: rolling back to savepoint `"b"` on the stack
`["a", "b", "c"]` leaves `["a", "b"]` — the stack ends at `"b"` itself, not
at the predecessor `["a"]` that the claim demands, because the source
splices from `index + 1`. -/
theorem rollbackToSavepoint_keeps_target :
    (rollbackToSavepoint ctxABC "b").savepoints ≠ ["a"] ∧
    "b" ∈ (rollbackToSavepoint ctxABC "b").savepoints ∧
    (rollbackToSavepoint ctxABC "b").savepoints = ["a", "b"] := by
  decide

/-- Rolling back to a just-pushed fresh savepoint keeps it on the stack
(the splice starts one past it). -/
theorem rollbackToSavepoint_fresh_push (c : TransactionContext)
    (hfresh : savepointNameFor c ∉ c.savepoints) :
    (rollbackToSavepoint (createSavepoint c).1 (createSavepoint c).2).savepoints =
      c.savepoints ++ [savepointNameFor c] := by
  have hidx := jsIndexOf_append_cons (savepointNameFor c) c.savepoints [] hfresh
  unfold rollbackToSavepoint createSavepoint
  simp [hidx, take_succ_of_append_cons]

/-- Releasing a just-pushed fresh savepoint removes exactly it. -/
theorem releaseSavepoint_fresh_push (c : TransactionContext)
    (hfresh : savepointNameFor c ∉ c.savepoints) :
    (releaseSavepoint (createSavepoint c).1 (createSavepoint c).2).savepoints =
      c.savepoints := by
  have hidx := jsIndexOf_append_cons (savepointNameFor c) c.savepoints [] hfresh
  unfold releaseSavepoint createSavepoint
  simp [hidx, eraseIdx_append_cons]

/-- C2 (amended): for a savepoint `S` on the stack,
`rollbackToSavepoint` truncates the stack to end at `S` itself — every
savepoint created after `S` is removed but `S` remains a member — while
`releaseSavepoint` removes only `S` and leaves both earlier and later
savepoints in place.  Consequently, on the nested path a failed scope
leaves its own (fresh) savepoint on the parent stack, while a succeeding
scope restores the stack exactly. -/
theorem savepoint_stack_rollback_release (ctx : TransactionContext)
    (pre post : List String) (S : String)
    (hpre : S ∉ pre) (hstack : ctx.savepoints = pre ++ S :: post) :
    (rollbackToSavepoint ctx S).savepoints = pre ++ [S] ∧
    S ∈ (rollbackToSavepoint ctx S).savepoints ∧
    (releaseSavepoint ctx S).savepoints = pre ++ post ∧
    (∀ (cfg : GlobalTransactionConfig) (opts : TransactionOptions)
        (m : String) (v : Option Nat) (t : Nat),
      nestedDepthGuard cfg ctx = false →
      savepointNameFor ctx ∉ ctx.savepoints →
      (handleNestedTransaction cfg ctx opts
          { outcome := Except.error m, settleTime := some t }).2.savepoints =
        ctx.savepoints ++ [savepointNameFor ctx] ∧
      (handleNestedTransaction cfg ctx opts
          { outcome := Except.ok v, settleTime := some t }).2.savepoints =
        ctx.savepoints) := by
  have hidx := jsIndexOf_append_cons S pre post hpre
  have hrollEq : (rollbackToSavepoint ctx S).savepoints = pre ++ [S] := by
    unfold rollbackToSavepoint
    simp [hstack, hidx, take_succ_of_append_cons]
  refine ⟨hrollEq, by rw [hrollEq]; simp, ?_, ?_⟩
  · unfold releaseSavepoint
    simp [hstack, hidx, eraseIdx_append_cons]
  · intro cfg opts m v t hguard hfresh
    constructor
    · unfold handleNestedTransaction
      rw [hguard]
      simpa using rollbackToSavepoint_fresh_push ctx hfresh
    · unfold handleNestedTransaction
      rw [hguard]
      simpa using releaseSavepoint_fresh_push ctx hfresh

/-- C2 witness: instantiating the amended theorem on the stack
`["a", "b", "c"]` at savepoint `"b"`. -/
theorem savepoint_stack_rollback_release_witness :
    (rollbackToSavepoint ctxABC "b").savepoints = ["a"] ++ ["b"] ∧
    "b" ∈ (rollbackToSavepoint ctxABC "b").savepoints ∧
    (releaseSavepoint ctxABC "b").savepoints = ["a"] ++ ["c"] ∧
    (∀ (cfg : GlobalTransactionConfig) (opts : TransactionOptions)
        (m : String) (v : Option Nat) (t : Nat),
      nestedDepthGuard cfg ctxABC = false →
      savepointNameFor ctxABC ∉ ctxABC.savepoints →
      (handleNestedTransaction cfg ctxABC opts
          { outcome := Except.error m, settleTime := some t }).2.savepoints =
        ctxABC.savepoints ++ [savepointNameFor ctxABC] ∧
      (handleNestedTransaction cfg ctxABC opts
          { outcome := Except.ok v, settleTime := some t }).2.savepoints =
        ctxABC.savepoints) :=
  savepoint_stack_rollback_release ctxABC ["a"] ["c"] "b" (by decide) (by decide)

/-- C5 counterexample: a NESTED scope in flight on a REQUIRED root context
(modelled by a body that has not settled yet) has pushed one savepoint while
leaving `depth` at 0, so `depth = savepoints.length` fails at that point of
the execution. -/
theorem depth_ne_savepoints_during_nested :
    (handleNestedTransaction defaultGlobalConfig rootCtx {} bodyNeverSettles).2.depth = 0 ∧
    (handleNestedTransaction defaultGlobalConfig rootCtx {} bodyNeverSettles).2.savepoints.length = 1 ∧
    (handleNestedTransaction defaultGlobalConfig rootCtx {} bodyNeverSettles).2.depth ≠
      (handleNestedTransaction defaultGlobalConfig rootCtx {} bodyNeverSettles).2.savepoints.length := by
  decide

/-- C5 (amended): each NESTED scope pushes exactly one savepoint onto the
parent context, but the `depth` field does not track the savepoint stack:
savepoint operations leave `depth` unchanged, and `depth` is fixed at
context creation (`parent.depth + 1` under a parent, else 0) with an empty
savepoint stack. -/
theorem nested_pushes_savepoint_depth_constant (ctx : TransactionContext)
    (S : String) (options : TransactionOptions)
    (parent : Option TransactionContext) (startTime : Nat) (cid : String) :
    (createSavepoint ctx).1.savepoints.length = ctx.savepoints.length + 1 ∧
    (createSavepoint ctx).1.depth = ctx.depth ∧
    (rollbackToSavepoint ctx S).depth = ctx.depth ∧
    (releaseSavepoint ctx S).depth = ctx.depth ∧
    (prepareTransactionContext options parent startTime cid).savepoints = [] ∧
    (prepareTransactionContext options parent startTime cid).depth =
      (match parent with
       | some p => p.depth + 1
       | none => 0) := by
  refine ⟨by simp [createSavepoint], rfl, ?_, ?_, rfl, rfl⟩
  · unfold rollbackToSavepoint
    rcases h : jsIndexOf ctx.savepoints S with _ | i <;> simp [h]
  · unfold releaseSavepoint
    rcases h : jsIndexOf ctx.savepoints S with _ | i <;> simp [h]

/-- Fixture: a global configuration whose nesting limit is set to 0. -/
def cfgZeroDepth : GlobalTransactionConfig :=
  { defaultGlobalConfig with maxNestedDepth := some 0 }

/-- Fixture: a context that is already very deep and holds several
savepoints. -/
def deepParent : TransactionContext :=
  { contextId := "tx_deep", savepoints := ["x", "y", "z"], depth := 99,
    options := {}, isActive := true, startTime := 0 }

/-- C10: with `maxNestedDepth` set to 0 the guard in
`handleNestedTransaction` is skipped entirely (0 is falsy), so a NESTED
call inside an existing transaction never fails with the depth-limit error,
whatever the parent depth and however many savepoints are outstanding; the
call goes straight to savepoint creation. -/
theorem nested_guard_disabled_when_zero (cfg : GlobalTransactionConfig)
    (env : AspectEnv) (parent : TransactionContext)
    (callerOptions : TransactionOptions)
    (hm : cfg.maxNestedDepth = some 0)
    (hp : callerOptions.propagation = some Propagation.NESTED) :
    (∀ m, (runAspect cfg env callerOptions (some parent)).outcome.result ≠
        some (Except.error (Err.nestingLimitExceeded m))) ∧
    ∃ tail, (runAspect cfg env callerOptions (some parent)).outcome.events =
      Event.savepointCreate (savepointNameFor parent) :: tail := by
  have hp2 : (applyGlobalDefaults callerOptions cfg).1.propagation =
      some Propagation.NESTED := by
    rw [applyGlobalDefaults_propagation, hp]
  have hguard : nestedDepthGuard cfg parent = false := by
    simp [nestedDepthGuard, hm]
  unfold runAspect
  simp only [hp2]
  unfold handleNestedTransaction
  rw [hguard]
  simp only [Bool.false_eq_true, if_false]
  rcases hs : env.body.settleTime with _ | s
  · exact ⟨by intro m h; simp [createSavepoint] at h, _, rfl⟩
  · rcases ho : env.body.outcome with v | m
    · exact ⟨by intro m h; simp [createSavepoint] at h, _, rfl⟩
    · exact ⟨by intro m h; simp [createSavepoint] at h, _, rfl⟩

/-- C10 witness: the depth guard stays disabled on a parent of depth 99
with three outstanding savepoints. -/
theorem nested_guard_disabled_when_zero_witness :
    (∀ m, (runAspect cfgZeroDepth envOK { propagation := some Propagation.NESTED }
        (some deepParent)).outcome.result ≠
        some (Except.error (Err.nestingLimitExceeded m))) ∧
    ∃ tail, (runAspect cfgZeroDepth envOK { propagation := some Propagation.NESTED }
        (some deepParent)).outcome.events =
      Event.savepointCreate (savepointNameFor deepParent) :: tail :=
  nested_guard_disabled_when_zero cfgZeroDepth envOK deepParent
    { propagation := some Propagation.NESTED } rfl rfl

/-- Fixture: the default configuration, whose nesting limit is 10. -/
def cfgLimit10 : GlobalTransactionConfig := defaultGlobalConfig

/-- Fixture: a context already at the configured nesting limit of 10. -/
def parentAtLimit : TransactionContext :=
  { contextId := "tx_limit", savepoints := [], depth := 10,
    options := {}, isActive := true, startTime := 0 }

/-- C6 counterexample: with the limit at 10 and a parent of depth 10, a
REQUIRES_NEW call succeeds, acquires a session (`connect` occurs) and
creates a live context of depth 11 > 10 — the claimed NestingLimitExceeded
failure never happens on that path. -/
theorem requires_new_exceeds_depth_limit :
    cfgLimit10.maxNestedDepth = some 10 ∧
    ((runAspect cfgLimit10 envOK { propagation := some Propagation.REQUIRES_NEW }
        (some parentAtLimit)).outcome.context.map TransactionContext.depth) = some 11 ∧
    (runAspect cfgLimit10 envOK { propagation := some Propagation.REQUIRES_NEW }
        (some parentAtLimit)).outcome.result = some (Except.ok (some 0)) ∧
    Event.connect ∈ (runAspect cfgLimit10 envOK
        { propagation := some Propagation.REQUIRES_NEW }
        (some parentAtLimit)).outcome.events := by
  decide

/-- C6 (amended): only the NESTED path is depth-guarded — when the
configured limit `m` is truthy and `parent.depth ≥ m`, a NESTED call fails
with the nesting-limit error before any savepoint is created (no events,
parent stack untouched) — while `prepareTransactionContext` always composes
a child context of depth `parent.depth + 1` with no limit check, so
REQUIRES_NEW chains can exceed the limit. -/
theorem nesting_guard_only_on_nested_path (cfg : GlobalTransactionConfig)
    (env : AspectEnv) (parent : TransactionContext)
    (callerOptions : TransactionOptions) (m : Nat)
    (hm : cfg.maxNestedDepth = some m) (hm0 : m ≠ 0) (hd : m ≤ parent.depth)
    (hp : callerOptions.propagation = some Propagation.NESTED) :
    (runAspect cfg env callerOptions (some parent)).outcome.result =
      some (Except.error (Err.nestingLimitExceeded m)) ∧
    (runAspect cfg env callerOptions (some parent)).outcome.events = [] ∧
    (handleNestedTransaction cfg parent
        (applyGlobalDefaults callerOptions cfg).1 env.body).2 = parent ∧
    ∀ (options : TransactionOptions) (startTime : Nat) (cid : String),
      (prepareTransactionContext options (some parent) startTime cid).depth =
        parent.depth + 1 := by
  have hp2 : (applyGlobalDefaults callerOptions cfg).1.propagation =
      some Propagation.NESTED := by
    rw [applyGlobalDefaults_propagation, hp]
  have hguard : nestedDepthGuard cfg parent = true := by
    simp [nestedDepthGuard, hm, hm0, hd]
  unfold runAspect
  simp only [hp2]
  unfold handleNestedTransaction
  rw [hguard]
  simp only [if_true]
  refine ⟨by simp [hm], by trivial, by trivial, fun _ _ _ => rfl⟩

/-- C6 witness: instantiating the amended theorem at limit 10, parent depth
10 and a NESTED call. -/
theorem nesting_guard_only_on_nested_path_witness :
    (runAspect cfgLimit10 envOK { propagation := some Propagation.NESTED }
        (some parentAtLimit)).outcome.result =
      some (Except.error (Err.nestingLimitExceeded 10)) ∧
    (runAspect cfgLimit10 envOK { propagation := some Propagation.NESTED }
        (some parentAtLimit)).outcome.events = [] ∧
    (handleNestedTransaction cfgLimit10 parentAtLimit
        (applyGlobalDefaults { propagation := some Propagation.NESTED } cfgLimit10).1
        envOK.body).2 = parentAtLimit ∧
    ∀ (options : TransactionOptions) (startTime : Nat) (cid : String),
      (prepareTransactionContext options (some parentAtLimit) startTime cid).depth =
        parentAtLimit.depth + 1 :=
  nesting_guard_only_on_nested_path cfgLimit10 envOK parentAtLimit
    { propagation := some Propagation.NESTED } 10 rfl (by decide) (by decide) rfl

/-- C7 counterexample: a NEVER call inside an existing transaction is
rejected with the propagation violation and updates the statistics zero
times, not once as the claim demands. -/
theorem never_violation_skips_stats :
    statsUpdateCount (runAspect defaultGlobalConfig envOK
        { propagation := some Propagation.NEVER } (some ctxABC)).outcome.events = 0 ∧
    (runAspect defaultGlobalConfig envOK
        { propagation := some Propagation.NEVER } (some ctxABC)).outcome.result =
      some (Except.error Err.neverPropagation) := by
  decide

/-- The singleton body-start trace holds no statistics update. -/
theorem statsUpdateCount_bodyStart : statsUpdateCount [Event.bodyStart] = 0 := rfl

/-- A leading body-start event adds no statistics update. -/
theorem statsUpdateCount_bodyStart_cons (l : List Event) :
    statsUpdateCount (Event.bodyStart :: l) = statsUpdateCount l := by
  unfold statsUpdateCount
  simp [List.countP_cons]

/-- The empty trace holds no statistics update. -/
theorem statsUpdateCount_nil : statsUpdateCount [] = 0 := rfl

/-- A leading statistics update adds one to the count. -/
theorem statsUpdateCount_statsUpdate_cons (b : Bool) (l : List Event) :
    statsUpdateCount (Event.statsUpdate b :: l) = statsUpdateCount l + 1 := by
  unfold statsUpdateCount
  simp [List.countP_cons]

/-- With a settling body and a found datasource, a new transaction records
exactly one statistics update. -/
theorem statsUpdateCount_createNewTransaction (env : AspectEnv)
    (options : TransactionOptions) (parentContext : Option TransactionContext)
    (s : Nat) (hds : env.dataSourceFound = true)
    (hsettle : env.body.settleTime = some s) :
    statsUpdateCount (createNewTransaction env options parentContext).events = 1 := by
  have hsome := executeInTransaction_settles options env.contextId env.body s hsettle
  unfold createNewTransaction
  rw [hds]
  simp only [if_true]
  rcases hconn : (connectAndStartTransaction options).2 with _ | e
  · rcases hexec : executeInTransaction options env.contextId env.body with _ | r
    · rw [hexec] at hsome
      simp at hsome
    · rcases r with v | e2 <;>
        simp [statsUpdateCount_append, statsUpdateCount_connect,
          statsUpdateCount_commit, statsUpdateCount_rollback,
          statsUpdateCount_cleanup, statsUpdateCount_bodyStart,
          statsUpdateCount_bodyStart_cons]
  · simp [statsUpdateCount_append, statsUpdateCount_connect,
      statsUpdateCount_rollback, statsUpdateCount_cleanup]

/-- With a settling body, a join or pass-through records exactly one
statistics update. -/
theorem statsUpdateCount_runWithStats (body : BodyBehavior) (s : Nat)
    (hsettle : body.settleTime = some s) :
    statsUpdateCount (runWithStats body).events = 1 := by
  unfold runWithStats
  rw [hsettle]
  rcases body.outcome with v | m <;> simp [statsUpdateCount]

/-- A nested savepoint scope never updates the statistics. -/
theorem statsUpdateCount_handleNested (cfg : GlobalTransactionConfig)
    (parent : TransactionContext) (options : TransactionOptions)
    (body : BodyBehavior) :
    statsUpdateCount (handleNestedTransaction cfg parent options body).1.events = 0 := by
  unfold handleNestedTransaction
  rcases nestedDepthGuard cfg parent with _ | _
  · rcases body.settleTime with _ | s
    · simp [statsUpdateCount]
    · rcases body.outcome with v | m <;> simp [statsUpdateCount]
  · simp [statsUpdateCount]

/-- A body-start event followed by one statistics update counts one. -/
theorem statsUpdateCount_body_stats (b : Bool) :
    statsUpdateCount [Event.bodyStart, Event.statsUpdate b] = 1 := rfl

/-- C7 (amended): provided the datasource is found and the body settles,
the statistics updates per `run` invocation are: zero on the three
unwrapped paths (NESTED inside a transaction, the NEVER violation inside a
transaction, the MANDATORY violation outside one); two on any handled join
or pass-through whose body resolves `undefined`, because `run` then takes
`propagationResult !== undefined` to be false and falls through to
`createNewTransaction`, re-running the body; and exactly one on every other
path. -/
theorem stats_update_count_per_run
    (cfg : GlobalTransactionConfig) (env : AspectEnv)
    (callerOptions : TransactionOptions)
    (currentContext : Option TransactionContext) (s : Nat)
    (hds : env.dataSourceFound = true)
    (hsettle : env.body.settleTime = some s) :
    statsUpdateCount (runAspect cfg env callerOptions currentContext).outcome.events =
      (match currentContext, callerOptions.propagation with
       | some _, some Propagation.NESTED => 0
       | some _, some Propagation.NEVER => 0
       | none, some Propagation.MANDATORY => 0
       | some _, some Propagation.REQUIRES_NEW => 1
       | none, some Propagation.SUPPORTS =>
           if env.body.outcome = Except.ok none then 2 else 1
       | none, some Propagation.NOT_SUPPORTED =>
           if env.body.outcome = Except.ok none then 2 else 1
       | none, some Propagation.NEVER =>
           if env.body.outcome = Except.ok none then 2 else 1
       | none, _ => 1
       | some _, _ => if env.body.outcome = Except.ok none then 2 else 1) := by
  have hp2 := applyGlobalDefaults_propagation callerOptions cfg
  have hcnt : ∀ (o : TransactionOptions) (pc : Option TransactionContext),
      statsUpdateCount (createNewTransaction env o pc).events = 1 :=
    fun o pc => statsUpdateCount_createNewTransaction env o pc s hds hsettle
  unfold runAspect
  unfold runPropagationOrCreate
  unfold handlePropagation
  rcases hcc : currentContext with _ | parent <;>
    rcases hp : callerOptions.propagation with _ | p <;>
    rw [hp] at hp2 <;>
    simp only [hp2] <;>
    try cases p
  all_goals
    first
      | exact statsUpdateCount_handleNested cfg parent _ env.body
      | (rcases ho : env.body.outcome with m | (_ | n) <;>
          simp [runWithStats, runInNewContext, undefinedOutcome, hsettle, ho,
            statsUpdateCount_append, statsUpdateCount_nil,
            statsUpdateCount_body_stats, statsUpdateCount_bodyStart_cons,
            statsUpdateCount_statsUpdate_cons, hcnt])

/-- Fixture: an environment whose body resolves `undefined` (a void async
method). -/
def envUndefinedBody : AspectEnv :=
  { body := { outcome := Except.ok none, settleTime := some 0 } }

/-- C7 witness: a REQUIRED join whose body resolves `undefined` trips the
sentinel test — `run` falls through to `createNewTransaction`, so a single
invocation updates the statistics twice. -/
theorem stats_updated_twice_on_undefined_witness :
    statsUpdateCount (runAspect defaultGlobalConfig envUndefinedBody
      { propagation := some Propagation.REQUIRED } (some ctxABC)).outcome.events = 2 :=
  stats_update_count_per_run defaultGlobalConfig envUndefinedBody
    { propagation := some Propagation.REQUIRED } (some ctxABC) 0 rfl rfl

/-- C1: when the decorated body throws `E`, `createNewTransaction` re-throws
exactly `E`; the failure path first runs the `beforeRollback` hook (when
configured), attempts the rollback only when the runner still reports an
active transaction, and rollback or release rejections during cleanup are
logged without replacing or suppressing `E`. -/
theorem body_error_transparency (env : AspectEnv) (options : TransactionOptions)
    (parentContext : Option TransactionContext) (msg : String) (s : Nat)
    (hds : env.dataSourceFound = true)
    (hhook : (connectAndStartTransaction options).2 = none)
    (hbody : env.body.outcome = Except.error msg)
    (hsettle : env.body.settleTime = some s)
    (hrace : ∀ t, options.timeout = some t → s ≤ t) :
    (createNewTransaction env options parentContext).result =
      some (Except.error (Err.bodyError msg)) ∧
    (createNewTransaction env options parentContext).events =
      (connectAndStartTransaction options).1 ++ [Event.bodyStart]
        ++ rollbackTransaction options env.session
        ++ cleanupTransaction env.session false ∧
    (Event.rollbackTx ∈ rollbackTransaction options env.session ↔
      env.session.isTransactionActiveAtRollback = true) ∧
    (options.hooks.beforeRollback ≠ none →
      (rollbackTransaction options env.session).head? = some Event.hookBeforeRollback) ∧
    (env.session.isTransactionActiveAtRollback = true →
      ∀ r, env.session.rollbackError = some r →
        Event.logError ("rollback failed: " ++ r) ∈ rollbackTransaction options env.session) ∧
    (env.session.isReleasedAtCleanup = false →
      ∀ r, env.session.releaseError = some r →
        Event.logError ("release failed: " ++ r) ∈ cleanupTransaction env.session false) := by
  have hexec : executeInTransaction options env.contextId env.body =
      some (Except.error (Err.bodyError msg)) := by
    unfold executeInTransaction
    rcases ht : options.timeout with _ | t
    · simp [truthyNat, ht, hsettle, hbody]
    · have hst := hrace t ht
      by_cases h0 : t = 0
      · simp [truthyNat, ht, h0, hsettle, hbody]
      · simp [truthyNat, ht, h0, createTimeoutPromise, hsettle, hbody, hst]
  refine ⟨?_, ?_, rollbackTx_mem_iff options env.session,
    rollback_starts_with_beforeRollback options env.session,
    fun hact r hr => rollback_error_logged options env.session hact r hr,
    fun hrel r hr => release_error_logged env.session false hrel r hr⟩
  · simp [createNewTransaction, hds, hhook, hexec]
  · simp [createNewTransaction, hds, hhook, hexec]

/-- Fixture: an environment whose body rejects with `"boom"` and whose
runner rejects both the rollback and the release. -/
def envBoom : AspectEnv :=
  { body := { outcome := Except.error "boom", settleTime := some 0 },
    session := { isTransactionActiveAtRollback := true,
                 rollbackError := some "rb",
                 isReleasedAtCleanup := false,
                 releaseError := some "rl" } }

/-- Fixture: options configuring both rollback hooks. -/
def optionsRollbackHooks : TransactionOptions :=
  { hooks := { beforeRollback := some none, afterRollback := some none } }

/-- C1 witness: with a body throwing `"boom"` and a runner that rejects both
rollback and release, the caller still observes `"boom"`, the hook runs
first and both rejections are merely logged. -/
theorem body_error_transparency_witness :
    (createNewTransaction envBoom optionsRollbackHooks none).result =
      some (Except.error (Err.bodyError "boom")) ∧
    (createNewTransaction envBoom optionsRollbackHooks none).events =
      (connectAndStartTransaction optionsRollbackHooks).1 ++ [Event.bodyStart]
        ++ rollbackTransaction optionsRollbackHooks envBoom.session
        ++ cleanupTransaction envBoom.session false ∧
    (Event.rollbackTx ∈ rollbackTransaction optionsRollbackHooks envBoom.session ↔
      envBoom.session.isTransactionActiveAtRollback = true) ∧
    (optionsRollbackHooks.hooks.beforeRollback ≠ none →
      (rollbackTransaction optionsRollbackHooks envBoom.session).head? =
        some Event.hookBeforeRollback) ∧
    (envBoom.session.isTransactionActiveAtRollback = true →
      ∀ r, envBoom.session.rollbackError = some r →
        Event.logError ("rollback failed: " ++ r) ∈
          rollbackTransaction optionsRollbackHooks envBoom.session) ∧
    (envBoom.session.isReleasedAtCleanup = false →
      ∀ r, envBoom.session.releaseError = some r →
        Event.logError ("release failed: " ++ r) ∈
          cleanupTransaction envBoom.session false) :=
  body_error_transparency envBoom optionsRollbackHooks none "boom" 0
    rfl rfl rfl rfl (fun t ht => nomatch ht)

/-- C3: with a truthy timeout `t` and a body that does not settle within `t`
milliseconds, the caller observes the timeout error carrying `t` and the
context id, and cleanup runs the failure path: the rollback phase (rolling
back exactly when the runner reports an active transaction) followed by the
cleanup phase, which counts the call as failed and releases the runner. -/
theorem timeout_rejects_and_cleans_up (env : AspectEnv)
    (options : TransactionOptions) (parentContext : Option TransactionContext)
    (t : Nat) (hds : env.dataSourceFound = true)
    (hhook : (connectAndStartTransaction options).2 = none)
    (ht : options.timeout = some t) (ht0 : t ≠ 0)
    (hlate : ∀ s, env.body.settleTime = some s → t < s) :
    (createNewTransaction env options parentContext).result =
      some (Except.error (Err.timeoutError t env.contextId)) ∧
    (createNewTransaction env options parentContext).events =
      (connectAndStartTransaction options).1 ++ [Event.bodyStart]
        ++ rollbackTransaction options env.session
        ++ cleanupTransaction env.session false ∧
    (Event.rollbackTx ∈ rollbackTransaction options env.session ↔
      env.session.isTransactionActiveAtRollback = true) ∧
    Event.statsUpdate false ∈ cleanupTransaction env.session false ∧
    (env.session.isReleasedAtCleanup = false →
      Event.releaseRunner ∈ cleanupTransaction env.session false) := by
  have hexec : executeInTransaction options env.contextId env.body =
      some (Except.error (Err.timeoutError t env.contextId)) := by
    unfold executeInTransaction
    rcases hs : env.body.settleTime with _ | s
    · simp [truthyNat, ht, ht0, createTimeoutPromise, hs]
    · have hlt := hlate s hs
      have hnle : ¬ s ≤ t := by omega
      simp [truthyNat, ht, ht0, createTimeoutPromise, hs, hnle]
  refine ⟨?_, ?_, rollbackTx_mem_iff options env.session,
    statsUpdate_mem_cleanup env.session false,
    fun hrel => releaseRunner_mem_cleanup env.session false hrel⟩
  · simp [createNewTransaction, hds, hhook, hexec]
  · simp [createNewTransaction, hds, hhook, hexec]

/-- Fixture: an environment whose body never settles. -/
def envHangingBody : AspectEnv :=
  { body := { outcome := Except.ok (some 7), settleTime := none } }

/-- C3 witness: a 50 ms timeout against a body that never settles rejects
with the timeout error and runs rollback, the failed statistics update and
the release. -/
theorem timeout_rejects_and_cleans_up_witness :
    (createNewTransaction envHangingBody { timeout := some 50 } none).result =
      some (Except.error (Err.timeoutError 50 envHangingBody.contextId)) ∧
    (createNewTransaction envHangingBody { timeout := some 50 } none).events =
      (connectAndStartTransaction { timeout := some 50 }).1 ++ [Event.bodyStart]
        ++ rollbackTransaction { timeout := some 50 } envHangingBody.session
        ++ cleanupTransaction envHangingBody.session false ∧
    (Event.rollbackTx ∈ rollbackTransaction { timeout := some 50 } envHangingBody.session ↔
      envHangingBody.session.isTransactionActiveAtRollback = true) ∧
    Event.statsUpdate false ∈ cleanupTransaction envHangingBody.session false ∧
    (envHangingBody.session.isReleasedAtCleanup = false →
      Event.releaseRunner ∈ cleanupTransaction envHangingBody.session false) :=
  timeout_rejects_and_cleans_up envHangingBody { timeout := some 50 } none 50
    rfl rfl rfl (by decide) (fun s hs => nomatch hs)

/-- C8: when the `beforeCommit` hook is configured, the new-transaction
trace fires it after `connect`, `startTransaction` and the read-only setup
and immediately before the body starts — so it runs strictly before any
body operation and is never adjacent to the commit. -/
theorem beforeCommit_after_begin_before_body (env : AspectEnv)
    (options : TransactionOptions) (parentContext : Option TransactionContext)
    (hds : env.dataSourceFound = true)
    (hbc : options.hooks.beforeCommit = some none) :
    ∃ tail,
      (createNewTransaction env options parentContext).events =
        [Event.connect, Event.startTransaction options.isolationLevel]
          ++ (if options.readOnly then [Event.setReadOnly] else [])
          ++ [Event.hookBeforeCommit, Event.bodyStart] ++ tail ∧
      Event.hookBeforeCommit ∉ tail := by
  have hconn : connectAndStartTransaction options =
      (([Event.connect, Event.startTransaction options.isolationLevel]
        ++ (if options.readOnly then [Event.setReadOnly] else []))
        ++ [Event.hookBeforeCommit], none) := by
    unfold connectAndStartTransaction
    rw [hbc]
    cases options.readOnly <;> simp
  unfold createNewTransaction
  rw [hds]
  simp only [if_true, hconn]
  rcases hexec : executeInTransaction options env.contextId env.body with _ | r
  · exact ⟨[], by simp, by simp⟩
  · rcases r with e | v
    · refine ⟨rollbackTransaction options env.session
        ++ cleanupTransaction env.session false, by simp, ?_⟩
      simp [hookBeforeCommit_not_mem_rollback options env.session,
        hookBeforeCommit_not_mem_cleanup env.session false]
    · refine ⟨commitTransaction options ++ cleanupTransaction env.session true, by simp, ?_⟩
      simp [hookBeforeCommit_not_mem_commit options,
        hookBeforeCommit_not_mem_cleanup env.session true]

/-- Fixture: read-only options configuring a succeeding `beforeCommit`
hook. -/
def optionsBeforeCommit : TransactionOptions :=
  { readOnly := true,
    isolationLevel := some IsolationLevel.READ_COMMITTED,
    hooks := { beforeCommit := some none } }

/-- C8 witness: on a read-only call with an isolation level, the hook fires
right after begin and read-only setup and right before the body. -/
theorem beforeCommit_after_begin_before_body_witness :
    ∃ tail,
      (createNewTransaction envOK optionsBeforeCommit none).events =
        [Event.connect, Event.startTransaction optionsBeforeCommit.isolationLevel]
          ++ (if optionsBeforeCommit.readOnly then [Event.setReadOnly] else [])
          ++ [Event.hookBeforeCommit, Event.bodyStart] ++ tail ∧
      Event.hookBeforeCommit ∉ tail :=
  beforeCommit_after_begin_before_body envOK optionsBeforeCommit none rfl rfl

/-- Fixture: a global configuration carrying a default timeout. -/
def cfgDefaultTimeout : GlobalTransactionConfig :=
  { defaultGlobalConfig with defaultTimeout := some 5000 }

/-- C9 counterexample: with a configured default timeout and caller options
leaving `timeout` unset, `run` writes the default into the caller-supplied
options object, and exactly that written object is stored as
`context.options` — refuting the claim that applying global defaults does
not write into the object that becomes the context options. -/
theorem defaults_write_into_context_options :
    (runAspect cfgDefaultTimeout envOK {} none).wroteIntoCallerOptions = true ∧
    ((runAspect cfgDefaultTimeout envOK {} none).outcome.context.map
        TransactionContext.options) =
      some (runAspect cfgDefaultTimeout envOK {} none).effectiveOptions ∧
    (runAspect cfgDefaultTimeout envOK {} none).effectiveOptions ≠
      ({} : TransactionOptions) ∧
    (runAspect cfgDefaultTimeout envOK {} none).effectiveOptions.timeout = some 5000 := by
  decide

/-- Rolling back to a savepoint touches only the savepoint stack. -/
theorem rollbackToSavepoint_options (c : TransactionContext) (n : String) :
    (rollbackToSavepoint c n).options = c.options := by
  unfold rollbackToSavepoint
  rcases h : jsIndexOf c.savepoints n with _ | i <;> simp [h]

/-- Releasing a savepoint touches only the savepoint stack. -/
theorem releaseSavepoint_options (c : TransactionContext) (n : String) :
    (releaseSavepoint c n).options = c.options := by
  unfold releaseSavepoint
  rcases h : jsIndexOf c.savepoints n with _ | i <;> simp [h]

/-- Joins and pass-throughs create no context. -/
theorem runWithStats_context_none (body : BodyBehavior) :
    (runWithStats body).context = none := by
  unfold runWithStats
  rcases body.settleTime with _ | s
  · rfl
  · rcases body.outcome with m | v <;> rfl

/-- Nested savepoint scopes create no context of their own. -/
theorem handleNested_context_none (cfg : GlobalTransactionConfig)
    (parent : TransactionContext) (options : TransactionOptions)
    (body : BodyBehavior) :
    (handleNestedTransaction cfg parent options body).1.context = none := by
  unfold handleNestedTransaction
  rcases nestedDepthGuard cfg parent with _ | _
  · rcases body.settleTime with _ | s
    · rfl
    · rcases body.outcome with m | v <;> rfl
  · rfl

/-- Whenever a new transaction creates a context, that context stores
exactly the options object the call was given, untouched by the later
lifecycle phases. -/
theorem createNewTransaction_context_options (env : AspectEnv)
    (options : TransactionOptions) (parentContext : Option TransactionContext) :
    ((createNewTransaction env options parentContext).context.map
        TransactionContext.options) =
      ((createNewTransaction env options parentContext).context.map
        (fun _ => options)) := by
  unfold createNewTransaction
  rcases hds : env.dataSourceFound with _ | _
  · rfl
  · simp only [if_true]
    rcases hconn : (connectAndStartTransaction options).2 with _ | e
    · rcases hexec : executeInTransaction options env.contextId env.body with _ | r
      · rfl
      · rcases r with e2 | v <;> rfl
    · rfl

/-- `handlePropagation` never creates a context of its own: every branch
either runs the body in (or outside) the existing binding, throws, or
resolves the `undefined` sentinel. -/
theorem handlePropagation_context_none (o : TransactionOptions)
    (cc : Option TransactionContext) (b : BodyBehavior) :
    (handlePropagation o cc b).context = none := by
  unfold handlePropagation
  rcases cc with _ | c <;>
    rcases o.propagation with _ | p <;>
    try cases p
  all_goals
    simp [runWithStats_context_none, runInNewContext, undefinedOutcome]

/-- Any context the sentinel-tested tail of `run` produces comes from
`createNewTransaction` and stores exactly the options object it was
given. -/
theorem runPropagationOrCreate_context_options (env : AspectEnv)
    (txOptions : TransactionOptions) (cc : Option TransactionContext) :
    ((runPropagationOrCreate env txOptions cc).context.map
        TransactionContext.options) =
      ((runPropagationOrCreate env txOptions cc).context.map
        (fun _ => txOptions)) := by
  unfold runPropagationOrCreate
  rcases hres : (handlePropagation txOptions cc env.body).result with _ | r
  · simp [hres, handlePropagation_context_none]
  · rcases r with e | (_ | n) <;>
      simp [hres, handlePropagation_context_none,
        createNewTransaction_context_options env txOptions cc]

/-- C9 (amended): the options stored in a transaction context are never
mutated after the context is created — savepoint operations and nested
scopes preserve them, and every context a `run` call creates still stores
the post-default options object when the call finishes; the global-default
application, however, does write into the caller-supplied object before
creation, and that same object is what the context stores. -/
theorem options_not_mutated_after_creation (cfg : GlobalTransactionConfig)
    (env : AspectEnv) (callerOptions : TransactionOptions)
    (currentContext : Option TransactionContext) (ctx : TransactionContext)
    (S : String) (options : TransactionOptions) (body : BodyBehavior) :
    (createSavepoint ctx).1.options = ctx.options ∧
    (rollbackToSavepoint ctx S).options = ctx.options ∧
    (releaseSavepoint ctx S).options = ctx.options ∧
    (handleNestedTransaction cfg ctx options body).2.options = ctx.options ∧
    ((runAspect cfg env callerOptions currentContext).outcome.context.map
        TransactionContext.options) =
      ((runAspect cfg env callerOptions currentContext).outcome.context.map
        (fun _ => (runAspect cfg env callerOptions currentContext).effectiveOptions)) := by
  have hnest : (handleNestedTransaction cfg ctx options body).2.options = ctx.options := by
    unfold handleNestedTransaction
    rcases nestedDepthGuard cfg ctx with _ | _
    · rcases body.settleTime with _ | s
      · rfl
      · rcases body.outcome with m | v
        · simp [rollbackToSavepoint_options, createSavepoint]
        · simp [releaseSavepoint_options, createSavepoint]
    · rfl
  have hp2 := applyGlobalDefaults_propagation callerOptions cfg
  refine ⟨rfl, rollbackToSavepoint_options ctx S, releaseSavepoint_options ctx S,
    hnest, ?_⟩
  unfold runAspect
  rcases hcc : currentContext with _ | parent <;>
    rcases hp : callerOptions.propagation with _ | p <;>
    rw [hp] at hp2 <;>
    simp only [hp2] <;>
    try cases p
  all_goals
    first
      | exact runPropagationOrCreate_context_options env _ _
      | simp [handleNested_context_none]

end Koatty
